import Mathlib

set_option maxRecDepth 100000

/-!
Shallow embedding of the two icon-generation scripts of the
worktree-manager repository (generate_icon_custom.py and
generate_icon.py).

Pure pipeline logic is translated function by function, keeping the
source names.  External collaborators (the PIL imaging primitives, the
remote generation service, the iconutil subprocess and the real
filesystem) are modelled explicitly: images are dimension-carrying pixel
maps, the filesystem is a map from path strings to file contents, and
the service response and the iconutil outcome are parameters of the
embedded functions.
-/

/-- RGBA pixel with 8-bit channels (values 0..255). -/
structure RGBA where
  r : Nat
  g : Nat
  b : Nat
  a : Nat
deriving DecidableEq

/-- Bitmap in RGBA mode: dimensions plus a pixel map.  Corresponds to a
PIL Image of mode RGBA. -/
structure Img where
  width : Nat
  height : Nat
  px : Nat → Nat → RGBA

/-- Single-channel (mode L) bitmap, as used for masks. -/
structure GrayMask where
  width : Nat
  height : Nat
  px : Nat → Nat → Nat

/-- PIL Image.new: a constant-colour canvas of the given size. -/
def imageNew (w h : Nat) (c : RGBA) : Img :=
  ⟨w, h, fun _ _ => c⟩

/-- Distance from pixel coordinate x to the straight band of a rounded
rectangle spanning coordinates 0..w-1 with corner radius r: zero in the
straight band, positive in the two corner bands. -/
def cornerGap (w r x : Nat) : Nat :=
  if x < r then r - x
  else if w - 1 - r < x then x - (w - 1 - r)
  else 0

/-- Pixel-level model of the rounded rectangle that
ImageDraw.rounded_rectangle fills over the whole w by h canvas with
corner radius r.  The draw call itself is an external PIL primitive;
this is its geometric content: a pixel is covered iff it lies within
radius r of the straight bands (quarter-circle corners). -/
def inRoundedRect (w h r x y : Nat) : Bool :=
  let dx := cornerGap w r x
  let dy := cornerGap h r y
  decide (dx * dx + dy * dy ≤ r * r)

/-- Corner radius computed by create_squircle_mask:
int(min(w, h) * 0.223) in the source.  For every edge length the
scripts use, truncating the float product equals the rational floor
min(w, h) * 223 / 1000 taken in natural-number division. -/
def squircleRadius (w h : Nat) : Nat :=
  min w h * 223 / 1000

/-- create_squircle_mask from the scripts (radius_ratio left at its
default 0.223): an L-mode mask of the full canvas, 255 inside the
rounded rectangle and 0 outside. -/
def create_squircle_mask (w h : Nat) : GrayMask :=
  ⟨w, h, fun x y => if inRoundedRect w h (squircleRadius w h) x y then 255 else 0⟩

/-- PIL Image.paste(src, (0, 0), mask) onto dst: per pixel, a linear
blend of src over dst weighted by the L-mask value m (m = 255 selects
src, m = 0 keeps dst).  The masks built by the scripts only ever hold 0
or 255, so the rounding convention for intermediate mask values is
immaterial here. -/
def pasteMask (dst src : Img) (mask : GrayMask) : Img :=
  ⟨dst.width, dst.height, fun x y =>
    let m := mask.px x y
    let s := src.px x y
    let d := dst.px x y
    ⟨(s.r * m + d.r * (255 - m)) / 255,
     (s.g * m + d.g * (255 - m)) / 255,
     (s.b * m + d.b * (255 - m)) / 255,
     (s.a * m + d.a * (255 - m)) / 255⟩⟩

/-- Body of one generate_icon_sizes loop step for edge length e: resize
the source to e by e, build the squircle mask, and paste the resized
image through the mask onto a fresh fully transparent canvas.  The
LANCZOS resampler is an external PIL primitive and is passed in as the
resize parameter. -/
def compositeIcon (resize : Img → Nat → Nat → Img) (img : Img) (e : Nat) : Img :=
  pasteMask (imageNew e e ⟨0, 0, 0, 0⟩) (resize img e e) (create_squircle_mask e e)

/-- Base sizes for macOS icons, as listed in generate_icon_sizes. -/
def sizes : List Nat := [16, 32, 128, 256, 512]

/-- All edge lengths that actually occur in the size and density grid:
each base size at density 1 and at density 2. -/
def gridEdges : List Nat := sizes ++ sizes.map (fun s => s * 2)

/-- The style_hints table of build_prompt. -/
def style_hints : List (String × String) :=
  [("modern", "Clean, modern, professional vector-like graphic with subtle gradients."),
   ("flat", "Flat design, bold colors, no gradients or shadows."),
   ("skeuomorphic", "Realistic 3D appearance with textures, shadows, and depth."),
   ("minimal", "Ultra-minimalist, single color on white, simple geometric shapes."),
   ("playful", "Bright colors, rounded shapes, friendly and approachable style.")]

/-- build_prompt from generate_icon_custom.py: style_hints.get(style,
style_hints["modern"]) followed by the f-string template. -/
def build_prompt (theme : String) (style : String) : String :=
  let style_desc := (style_hints.lookup style).getD
    "Clean, modern, professional vector-like graphic with subtle gradients."
  s!"Create a raw app icon texture for: \"{theme}\".\n\nCRITICAL INSTRUCTION: Generate a FULL BLEED SQUARE image.\n- DO NOT render a rounded icon shape inside a background.\n- DO NOT add drop shadows or 3D borders around the edges.\n- The image must look like a flat square texture that fills the ENTIRE canvas 100%.\n\nDesign requirements:\n- A central symbol or illustration representing the theme \"{theme}\".\n- Use harmonious, professional color palette appropriate for the theme.\n- Background: Solid or subtle gradient that extends to all 4 corners.\n- Style: {style_desc}\n"

/-- Contents of one file: raw bytes as written by open(path, 'wb'), or
the exact RGBA samples of a PNG written by PIL Image.save.  PNG is a
lossless format, so a saved image file holds its pixel samples
exactly. -/
inductive FileData where
  | bytes (b : List Nat)
  | image (i : Img)

/-- Filesystem model: a partial map from path strings to file contents
plus the set of existing directories. -/
structure FS where
  files : String → Option FileData
  dirs : String → Bool

/-- The empty filesystem. -/
def emptyFS : FS := ⟨fun _ => none, fun _ => false⟩

/-- Boolean test that the first character list is an initial segment of
the second. -/
def leadList : List Char → List Char → Bool
  | [], _ => true
  | _ :: _, [] => false
  | a :: as, b :: bs => a == b && leadList as bs

/-- Path p lies strictly inside directory dir (dir ++ "/" leads p). -/
def pathUnder (dir p : String) : Bool :=
  leadList (dir ++ "/").data p.data

/-- Create or truncate a file (open(path, 'wb') / Image.save). -/
def writeFile (fs : FS) (p : String) (v : FileData) : FS :=
  ⟨fun q => if q = p then some v else fs.files q, fs.dirs⟩

/-- shutil.rmtree(dir): recursively remove the directory and everything
inside it. -/
def rmtree (fs : FS) (dir : String) : FS :=
  ⟨fun p => if p = dir then none else if pathUnder dir p then none else fs.files p,
   fun q => if q = dir then false else if pathUnder dir q then false else fs.dirs q⟩

/-- Path.exists(): true if a file or a directory is present at p. -/
def pathExists (fs : FS) (p : String) : Bool :=
  (fs.files p).isSome || fs.dirs p

/-- Path.mkdir(parents=True): record the directory as existing (ancestor
creation is immaterial to the claims and not tracked). -/
def mkdirParents (fs : FS) (dir : String) : FS :=
  ⟨fs.files, fun q => if q = dir then true else fs.dirs q⟩

/-- PIL Image.open on a path followed by convert("RGBA").  Decoding PNG
bytes is an external codec, passed in as the decode parameter; a file
that was saved from an in-memory image yields those pixels back exactly
(PNG is lossless).  Our Img is always RGBA, so convert("RGBA") is the
identity on it. -/
def openImage (decode : List Nat → Option Img) (fs : FS) (p : String) : Option Img :=
  match fs.files p with
  | some (.bytes b) => decode b
  | some (.image i) => some i
  | none => none

/-- Python exceptions that the scripts can raise or handle. -/
inductive PyErr where
  | calledProcessError (stderr : String)
  | fileNotFoundError
  | unidentifiedImageError
  | indexError
deriving DecidableEq

/-- File name used inside the iconset directory for base size s:
icon_{s}x{s}.png at density 1 and icon_{s}x{s}@2x.png at density 2. -/
def nameCore (s : Nat) (twox : Bool) : String :=
  "icon_" ++ toString s ++ "x" ++ toString s ++ (if twox then "@2x.png" else ".png")

/-- Full path of one iconset entry. -/
def iconName (dir : String) (s : Nat) (twox : Bool) : String :=
  dir ++ "/" ++ nameCore s twox

/-- The for-loop of generate_icon_sizes: for each base size write the
1x composite and then the 2x composite into the output directory. -/
def writeIconLoop (resize : Img → Nat → Nat → Img) (img : Img) (dir : String) :
    List Nat → FS → FS
  | [], fs => fs
  | size :: rest, fs =>
    let fs1 := writeFile fs (iconName dir size false)
      (.image (compositeIcon resize img size))
    let fs2 := writeFile fs1 (iconName dir size true)
      (.image (compositeIcon resize img (size * 2)))
    writeIconLoop resize img dir rest fs2

/-- Staging-directory reset at the top of generate_icon_sizes: if the
output directory exists, rmtree it; then mkdir it fresh. -/
def resetFS (fs : FS) (dir : String) : FS :=
  mkdirParents (if pathExists fs dir then rmtree fs dir else fs) dir

/-- generate_icon_sizes from the scripts: reset the staging directory
(rmtree if it exists, then mkdir), open the source image as RGBA, then
for every base size write the masked 1x and 2x composites.  Returns the
updated filesystem and the printed lines; PIL raises if the source
cannot be identified as an image. -/
def generate_icon_sizes (resize : Img → Nat → Nat → Img)
    (decode : List Nat → Option Img) (source_path output_dir : String)
    (fs : FS) : Except PyErr (FS × List String) :=
  let fs2 := resetFS fs output_dir
  match openImage decode fs2 source_path with
  | none => .error .unidentifiedImageError
  | some img =>
    .ok (writeIconLoop resize img output_dir sizes fs2,
      [s!"Generated iconset at {output_dir}"])

/-- Possible outcomes of the external iconutil invocation. -/
inductive ToolResult where
  | success
  | nonzeroExit (stderr : String)
  | notFound
deriving DecidableEq

/-- subprocess.run(["iconutil", ...], check=True, capture_output=True):
raises CalledProcessError on a nonzero exit and FileNotFoundError when
the executable is absent. -/
def subprocessRunIconutil (tool : ToolResult) : Except PyErr Unit :=
  match tool with
  | .success => .ok ()
  | .nonzeroExit stderr => .error (.calledProcessError stderr)
  | .notFound => .error .fileNotFoundError

/-- generate_icns from the scripts: run iconutil inside try/except.  On
success the external tool writes the container file (its bytes are a
parameter).  CalledProcessError and FileNotFoundError are caught and
turned into printed diagnostics; anything else would propagate. -/
def generate_icns (tool : ToolResult) (icnsBytes : List Nat)
    (iconset_path output_path : String) (fs : FS) :
    Except PyErr (FS × List String) :=
  match subprocessRunIconutil tool with
  | .ok () =>
    .ok (writeFile fs output_path (.bytes icnsBytes),
      [s!"Successfully compiled .icns to {output_path}"])
  | .error (.calledProcessError stderr) =>
    .ok (fs, [s!"Error running iconutil: {stderr}"])
  | .error .fileNotFoundError =>
    .ok (fs, ["Warning: 'iconutil' not found. Are you on macOS? Skipping .icns generation."])
  | .error e => .error e

/-- Value of one base64 alphabet character. -/
def b64CharVal (c : Char) : Option Nat :=
  if 65 ≤ c.toNat ∧ c.toNat ≤ 90 then some (c.toNat - 65)
  else if 97 ≤ c.toNat ∧ c.toNat ≤ 122 then some (c.toNat - 71)
  else if 48 ≤ c.toNat ∧ c.toNat ≤ 57 then some (c.toNat + 4)
  else if c = '+' then some 62
  else if c = '/' then some 63
  else none

/-- Reassemble bytes from a list of six-bit values, four at a time. -/
def b64Quads : List Nat → List Nat
  | a :: b :: c :: d :: rest =>
    (a * 4 + b / 16) :: (b % 16 * 16 + c / 4) :: (c % 4 * 64 + d) :: b64Quads rest
  | [a, b, c] => [a * 4 + b / 16, b % 16 * 16 + c / 4]
  | [a, b] => [a * 4 + b / 16]
  | _ => []

/-- Model of base64.b64decode applied to a base64 text payload. -/
def b64decode (s : String) : List Nat :=
  b64Quads (s.data.filterMap b64CharVal)

/-- Inline payload of a response part: either already raw bytes
(isinstance(raw_data, bytes)) or base64-encoded text. -/
inductive RawData where
  | binary (b : List Nat)
  | text (s : String)

/-- One content part of a response candidate; inline_data is None for
pure text parts. -/
structure RespPart where
  inline_data : Option RawData

/-- Content of a candidate. -/
structure Content where
  parts : List RespPart

/-- One response candidate. -/
structure Candidate where
  content : Content

/-- A generation response from the remote service. -/
structure Response where
  candidates : List Candidate

/-- The for-loop over response.candidates[0].content.parts: the first
part whose inline_data is not None is acted on and the function
returns; later parts are never examined. -/
def scanParts : List RespPart → Option RawData
  | [] => none
  | p :: rest =>
    match p.inline_data with
    | some d => some d
    | none => scanParts rest

/-- Payload normalization inside generate_icon: raw_data if
isinstance(raw_data, bytes) else base64.b64decode(raw_data). -/
def decodePayload : RawData → List Nat
  | .binary b => b
  | .text s => b64decode s

/-- First line printed by generate_icon (custom variant). -/
def genMsg (theme style : String) : String :=
  s!"Generating icon for theme: '{theme}' (style: {style})..."

/-- generate_icon from generate_icon_custom.py.  The prompt is built
and sent with the request; the service response is a parameter (network
transport is external).  Paths are relative to the script directory
(Path(--file--).parent), which is elided as a common prefix. -/
def generate_icon (resize : Img → Nat → Nat → Img)
    (decode : List Nat → Option Img) (tool : ToolResult) (icnsBytes : List Nat)
    (theme output_name style : String) (response : Response) (fs : FS) :
    Except PyErr (FS × List String) :=
  let prompt := build_prompt theme style
  let _ := prompt
  match response.candidates with
  | [] => .error .indexError
  | cand :: _ =>
    match scanParts cand.content.parts with
    | some raw_data =>
      let image_data := decodePayload raw_data
      let raw_output_path := output_name ++ "_generated.png"
      let fs1 := writeFile fs raw_output_path (.bytes image_data)
      let iconset_path := output_name ++ ".iconset"
      let icns_path := output_name ++ ".icns"
      match generate_icon_sizes resize decode raw_output_path iconset_path fs1 with
      | .error e => .error e
      | .ok (fs2, msgs2) =>
        match generate_icns tool icnsBytes iconset_path icns_path fs2 with
        | .error e => .error e
        | .ok (fs3, msgs3) =>
          .ok (fs3, [genMsg theme style, s!"Raw icon saved: {raw_output_path}"]
            ++ msgs2 ++ msgs3)
    | none => .ok (fs, [genMsg theme style, "No image generated."])

/-- Python str.strip() with no arguments: remove leading and trailing
whitespace. -/
def pyStrip (s : String) : String :=
  ⟨((s.data.dropWhile Char.isWhitespace).reverse.dropWhile Char.isWhitespace).reverse⟩

/-- Result of the main entry point: either sys.exit with a status code
or a call into generate_icon with the resolved argument triple. -/
inductive MainResult where
  | exited (code : Nat) (printed : List String)
  | ran (theme output_name style : String) (printed : List String)
deriving DecidableEq

/-- The "-" * 40 separator line printed in interactive mode. -/
def dashesLine : String := "----------------------------------------"

/-- main from generate_icon_custom.py.  args models sys.argv[1:]; the
three input strings model what the operator types at the interactive
prompts (only consulted when args is empty). -/
def mainEntry (args : List String) (inputTheme inputName inputStyle : String) :
    MainResult :=
  match args with
  | theme :: rest =>
    let output_name := match rest with
      | n :: _ => n
      | [] => "custom_icon"
    let style := match rest with
      | _ :: s :: _ => s
      | _ => "modern"
    .ran theme output_name style []
  | [] =>
    let theme := pyStrip inputTheme
    if theme = "" then
      .exited 1 ["Icon Generator", dashesLine, "Theme is required."]
    else
      let output_name := if pyStrip inputName = "" then "custom_icon" else pyStrip inputName
      let style := if pyStrip inputStyle = "" then "modern" else pyStrip inputStyle
      .ran theme output_name style ["Icon Generator", dashesLine,
        "Available styles: modern, flat, skeuomorphic, minimal, playful"]

/-- Outcome of one whole script run. -/
inductive ScriptOutcome where
  | fatalExit (code : Nat) (printed : List String)
  | completed (fs : FS) (printed : List String)
  | uncaught (e : PyErr)

/-- One whole run of generate_icon_custom.py: main resolves the
arguments and either exits or calls generate_icon; an exception that
generate_icon does not handle terminates the process abnormally. -/
def runScript (resize : Img → Nat → Nat → Img)
    (decode : List Nat → Option Img) (tool : ToolResult) (icnsBytes : List Nat)
    (args : List String) (inputTheme inputName inputStyle : String)
    (response : Response) (fs : FS) : ScriptOutcome :=
  match mainEntry args inputTheme inputName inputStyle with
  | .exited code printed => .fatalExit code printed
  | .ran theme output_name style printed =>
    match generate_icon resize decode tool icnsBytes theme output_name style
        response fs with
    | .ok (fs2, msgs) => .completed fs2 (printed ++ msgs)
    | .error e => .uncaught e

/-! Helper lemmas about strings, paths and the filesystem model. -/

theorem strAppend_cancel {s a b : String} : s ++ a = s ++ b ↔ a = b := by
  constructor
  · intro h
    have h2 := congrArg String.data h
    simp [String.data_append] at h2
    exact String.ext h2
  · intro h
    rw [h]

theorem strAppend_assoc (a b c : String) : a ++ b ++ c = a ++ (b ++ c) := by
  apply String.ext
  simp [String.data_append]

theorem leadList_append (l a b : List Char) :
    leadList (l ++ a) (l ++ b) = leadList a b := by
  induction l with
  | nil => rfl
  | cons c cs ih => simp [leadList, ih]

theorem leadList_self_append (l t : List Char) : leadList l (l ++ t) = true := by
  induction l with
  | nil => rfl
  | cons c cs ih => simp [leadList, ih]

theorem pathUnder_iconName (dir : String) (s : Nat) (b : Bool) :
    pathUnder dir (iconName dir s b) = true := by
  unfold pathUnder iconName
  rw [String.data_append]
  exact leadList_self_append _ _

theorem iconName_eq_iff (dir : String) (s t : Nat) (b c : Bool) :
    iconName dir s b = iconName dir t c ↔ nameCore s b = nameCore t c := by
  unfold iconName
  rw [strAppend_assoc, strAppend_assoc]
  exact strAppend_cancel.trans strAppend_cancel

theorem pathUnder_ne {dir p q : String} (hp : pathUnder dir p = true)
    (hq : pathUnder dir q = false) : q ≠ p := by
  intro h
  rw [h, hp] at hq
  cases hq

theorem writeFile_files (fs : FS) (p : String) (v : FileData) (q : String) :
    (writeFile fs p v).files q = if q = p then some v else fs.files q := rfl

theorem writeFile_dirs (fs : FS) (p : String) (v : FileData) :
    (writeFile fs p v).dirs = fs.dirs := rfl

theorem resetFS_files_outside (fs : FS) (dir p : String)
    (h1 : pathUnder dir p = false) (h2 : p ≠ dir) :
    (resetFS fs dir).files p = fs.files p := by
  unfold resetFS mkdirParents rmtree
  cases hex : pathExists fs dir <;> simp [h1, h2]

theorem resetFS_files_under (fs : FS) (dir p : String)
    (h : pathUnder dir p = true) :
    (resetFS fs dir).files p =
      if pathExists fs dir then none else fs.files p := by
  unfold resetFS mkdirParents rmtree
  cases hex : pathExists fs dir <;> simp [h]

theorem resetFS_dirs_self (fs : FS) (dir : String) :
    (resetFS fs dir).dirs dir = true := by
  simp [resetFS, mkdirParents]

theorem writeIconLoop_dirs (resize : Img → Nat → Nat → Img) (img : Img)
    (dir : String) (L : List Nat) (fs : FS) :
    (writeIconLoop resize img dir L fs).dirs = fs.dirs := by
  induction L generalizing fs with
  | nil => rfl
  | cons s rest ih => simp [writeIconLoop, ih, writeFile_dirs]

theorem writeIconLoop_files_notMem (resize : Img → Nat → Nat → Img) (img : Img)
    (dir : String) (L : List Nat) (fs : FS) (p : String)
    (h : ∀ s ∈ L, ∀ b : Bool, p ≠ iconName dir s b) :
    (writeIconLoop resize img dir L fs).files p = fs.files p := by
  induction L generalizing fs with
  | nil => rfl
  | cons s rest ih =>
    show (writeIconLoop resize img dir rest _).files p = _
    rw [ih _ (fun t ht b => h t (List.mem_cons_of_mem s ht) b)]
    rw [writeFile_files, if_neg (h s (List.mem_cons_self s rest) true),
      writeFile_files, if_neg (h s (List.mem_cons_self s rest) false)]

theorem writeIconLoop_concrete_files (resize : Img → Nat → Nat → Img)
    (img : Img) (dir : String) (fs : FS) (q : String) :
    (writeIconLoop resize img dir sizes fs).files q =
      if q = iconName dir 512 true then some (.image (compositeIcon resize img 1024))
      else if q = iconName dir 512 false then some (.image (compositeIcon resize img 512))
      else if q = iconName dir 256 true then some (.image (compositeIcon resize img 512))
      else if q = iconName dir 256 false then some (.image (compositeIcon resize img 256))
      else if q = iconName dir 128 true then some (.image (compositeIcon resize img 256))
      else if q = iconName dir 128 false then some (.image (compositeIcon resize img 128))
      else if q = iconName dir 32 true then some (.image (compositeIcon resize img 64))
      else if q = iconName dir 32 false then some (.image (compositeIcon resize img 32))
      else if q = iconName dir 16 true then some (.image (compositeIcon resize img 32))
      else if q = iconName dir 16 false then some (.image (compositeIcon resize img 16))
      else fs.files q := rfl

theorem writeIconLoop_files_mem (resize : Img → Nat → Nat → Img) (img : Img)
    (dir : String) (fs : FS) :
    ∀ s ∈ sizes, ∀ b : Bool,
      (writeIconLoop resize img dir sizes fs).files (iconName dir s b) =
        some (.image (compositeIcon resize img (if b then s * 2 else s))) := by
  intro s hs b
  fin_cases hs <;> cases b <;>
    simp +decide [writeIconLoop_concrete_files, iconName_eq_iff]

/-! Concrete stand-ins used by witnesses: a 1 by 1 opaque source image, a
nearest-neighbour resampler in place of the external LANCZOS one, a
decoder that always yields that image, and a tiny filesystem holding one
source file. -/

def constImg : Img := ⟨1, 1, fun _ _ => ⟨7, 7, 7, 255⟩⟩

def resizeNearest (img : Img) (w h : Nat) : Img :=
  ⟨w, h, fun x y => img.px (x * img.width / w) (y * img.height / h)⟩

def decodeW : List Nat → Option Img := fun _ => some constImg

def fsW : FS := writeFile emptyFS "src.png" (.bytes [1])

/-- Claim C2: for every edge length E in the size and density grid, the
mask of create_squircle_mask (E, E) is the rounded rectangle over the
full E by E canvas with corner radius floor(E * 0.223) — opaque (255)
inside, transparent (0) outside — and in the composite pasted through
that mask every pixel outside the rounded rectangle is fully
transparent while every pixel inside carries the resized source pixel
exactly (hence alpha 255 wherever the resized source is opaque). -/
theorem claim_C2_mask_and_composite (resize : Img → Nat → Nat → Img)
    (img : Img) (E x y : Nat) (hE : E ∈ gridEdges) (hx : x < E) (hy : y < E) :
    (create_squircle_mask E E).width = E ∧
    (create_squircle_mask E E).height = E ∧
    (compositeIcon resize img E).width = E ∧
    (compositeIcon resize img E).height = E ∧
    (create_squircle_mask E E).px x y =
      (if inRoundedRect E E (E * 223 / 1000) x y then 255 else 0) ∧
    (inRoundedRect E E (E * 223 / 1000) x y = false →
      (compositeIcon resize img E).px x y = ⟨0, 0, 0, 0⟩) ∧
    (inRoundedRect E E (E * 223 / 1000) x y = true →
      (compositeIcon resize img E).px x y = (resize img E E).px x y ∧
      (((resize img E E).px x y).a = 255 →
        ((compositeIcon resize img E).px x y).a = 255)) := by
  refine ⟨rfl, rfl, rfl, rfl, ?_, ?_, ?_⟩
  · simp [create_squircle_mask, squircleRadius]
  · intro h
    simp [compositeIcon, pasteMask, create_squircle_mask, imageNew, squircleRadius, h]
  · intro h
    have hpx : (compositeIcon resize img E).px x y = (resize img E E).px x y := by
      simp [compositeIcon, pasteMask, create_squircle_mask, imageNew, squircleRadius, h]
    exact ⟨hpx, fun ha => by rw [hpx]; exact ha⟩

/-- Witness for claim C2 at E = 16 with concrete pixels: (0, 0) lies
outside the rounded rectangle and becomes fully transparent; (8, 8)
lies inside and carries the resized source pixel. -/
theorem claim_C2_witness :
    (compositeIcon resizeNearest constImg 16).px 0 0 = ⟨0, 0, 0, 0⟩ ∧
    (compositeIcon resizeNearest constImg 16).px 8 8 =
      (resizeNearest constImg 16 16).px 8 8 :=
  ⟨(claim_C2_mask_and_composite resizeNearest constImg 16 0 0 (by decide)
      (by decide) (by decide)).2.2.2.2.2.1 (by decide),
   ((claim_C2_mask_and_composite resizeNearest constImg 16 8 8 (by decide)
      (by decide) (by decide)).2.2.2.2.2.2 (by decide)).1⟩

/-- Claim C5: generate_icns never raises to its caller — for every tool
outcome the call returns normally; on a nonzero iconutil exit the
captured stderr is printed in a diagnostic and the filesystem (hence
the PNG iconset) is left untouched; when iconutil is not found a
warning is printed, no container is written, and the filesystem is
again untouched. -/
theorem claim_C5_icns_failure_policy (tool : ToolResult) (icnsBytes : List Nat)
    (iconset_path output_path : String) (fs : FS) :
    (∃ out, generate_icns tool icnsBytes iconset_path output_path fs = .ok out) ∧
    (∀ stderr, tool = .nonzeroExit stderr →
      generate_icns tool icnsBytes iconset_path output_path fs =
        .ok (fs, [s!"Error running iconutil: {stderr}"])) ∧
    (tool = .notFound →
      generate_icns tool icnsBytes iconset_path output_path fs =
        .ok (fs, ["Warning: 'iconutil' not found. Are you on macOS? Skipping .icns generation."])) := by
  refine ⟨?_, ?_, ?_⟩
  · cases tool <;> exact ⟨_, rfl⟩
  · rintro stderr rfl
    rfl
  · rintro rfl
    rfl

/-- Witness for claim C5: concrete nonzero-exit and not-found runs. -/
theorem claim_C5_witness :
    generate_icns (.nonzeroExit "boom") [] "a.iconset" "a.icns" emptyFS =
      .ok (emptyFS, ["Error running iconutil: boom"]) ∧
    generate_icns .notFound [] "a.iconset" "a.icns" emptyFS =
      .ok (emptyFS, ["Warning: 'iconutil' not found. Are you on macOS? Skipping .icns generation."]) :=
  ⟨(claim_C5_icns_failure_policy (.nonzeroExit "boom") [] "a.iconset" "a.icns"
      emptyFS).2.1 "boom" rfl,
   (claim_C5_icns_failure_policy .notFound [] "a.iconset" "a.icns"
      emptyFS).2.2 rfl⟩

/-- Claim C6: for every theme and every style key outside the fixed
table, build_prompt silently substitutes the "modern" description, so
the built prompt equals the one built with style "modern". -/
theorem claim_C6_unknown_style_defaults (theme style : String)
    (h : style ∉ ["modern", "flat", "skeuomorphic", "minimal", "playful"]) :
    build_prompt theme style = build_prompt theme "modern" := by
  have b1 : (style == "modern") = false := by
    rw [beq_eq_false_iff_ne]; intro he; exact h (by simp [he])
  have b2 : (style == "flat") = false := by
    rw [beq_eq_false_iff_ne]; intro he; exact h (by simp [he])
  have b3 : (style == "skeuomorphic") = false := by
    rw [beq_eq_false_iff_ne]; intro he; exact h (by simp [he])
  have b4 : (style == "minimal") = false := by
    rw [beq_eq_false_iff_ne]; intro he; exact h (by simp [he])
  have b5 : (style == "playful") = false := by
    rw [beq_eq_false_iff_ne]; intro he; exact h (by simp [he])
  simp [build_prompt, style_hints, List.lookup, b1, b2, b3, b4, b5]

/-- Witness for claim C6: the unknown style "gothic" produces exactly
the "modern" prompt. -/
theorem claim_C6_witness :
    build_prompt "Weather App" "gothic" = build_prompt "Weather App" "modern" :=
  claim_C6_unknown_style_defaults "Weather App" "gothic" (by decide)

/-- Claim C7: in interactive mode (no command-line arguments), an empty
theme input terminates immediately with exit status 1 and an operator
message, and the whole run ends in that fatal exit for every possible
service response and filesystem — so no prompt is built and no request
is consumed. -/
theorem claim_C7_interactive_empty_theme (iTheme iName iStyle : String)
    (h : pyStrip iTheme = "") :
    mainEntry [] iTheme iName iStyle =
      .exited 1 ["Icon Generator", dashesLine, "Theme is required."] ∧
    ∀ (resize : Img → Nat → Nat → Img) (decode : List Nat → Option Img)
      (tool : ToolResult) (icnsBytes : List Nat) (response : Response) (fs : FS),
      runScript resize decode tool icnsBytes [] iTheme iName iStyle response fs =
        .fatalExit 1 ["Icon Generator", dashesLine, "Theme is required."] := by
  have hm : mainEntry [] iTheme iName iStyle =
      .exited 1 ["Icon Generator", dashesLine, "Theme is required."] := by
    simp [mainEntry, h]
  exact ⟨hm, fun _ _ _ _ _ _ => by simp [runScript, hm]⟩

/-- Witness for claim C7: whitespace-only interactive theme input. -/
theorem claim_C7_witness :
    mainEntry [] "  " "name" "style" =
      .exited 1 ["Icon Generator", dashesLine, "Theme is required."] :=
  (claim_C7_interactive_empty_theme "  " "name" "style" (by decide)).1

/-- Claim C10: the non-empty check on the theme exists only on the
interactive path — an empty-string theme supplied as a command-line
argument is accepted, main resolves the triple ("", "custom_icon",
"modern") and the run proceeds into generate_icon (prompt construction
and the generation request) instead of exiting: with a response that
carries no image part the run completes softly rather than exiting
fatally. -/
theorem claim_C10_argv_theme_unchecked (i1 i2 i3 : String)
    (resize : Img → Nat → Nat → Img) (decode : List Nat → Option Img)
    (tool : ToolResult) (icnsBytes : List Nat) (fs : FS) :
    mainEntry [""] i1 i2 i3 = .ran "" "custom_icon" "modern" [] ∧
    runScript resize decode tool icnsBytes [""] i1 i2 i3 ⟨[⟨⟨[]⟩⟩]⟩ fs =
      .completed fs [genMsg "" "modern", "No image generated."] :=
  ⟨rfl, rfl⟩

/-! Lemmas describing one successful generate_icon_sizes run. -/

theorem openImage_resetFS (decode : List Nat → Option Img) (fs : FS)
    (dir p : String) (h1 : pathUnder dir p = false) (h2 : p ≠ dir) :
    openImage decode (resetFS fs dir) p = openImage decode fs p := by
  unfold openImage
  rw [resetFS_files_outside fs dir p h1 h2]

theorem generate_icon_sizes_ok (resize : Img → Nat → Nat → Img)
    (decode : List Nat → Option Img) (source_path output_dir : String)
    (fs : FS) (img : Img) (fs' : FS) (msgs : List String)
    (hnu : pathUnder output_dir source_path = false)
    (hne : source_path ≠ output_dir)
    (hsrc : openImage decode fs source_path = some img)
    (hrun : generate_icon_sizes resize decode source_path output_dir fs =
      .ok (fs', msgs)) :
    fs' = writeIconLoop resize img output_dir sizes (resetFS fs output_dir) := by
  have hopen : openImage decode (resetFS fs output_dir) source_path = some img := by
    rw [openImage_resetFS decode fs output_dir source_path hnu hne]
    exact hsrc
  simp only [generate_icon_sizes, hopen] at hrun
  injection hrun with h
  exact (congrArg Prod.fst h).symm

/-- Claim C1: a successful generate_icon_sizes run on a valid RGBA
source leaves the staging iconset directory holding exactly the ten
PNGs — for every base size s in {16,32,128,256,512} one file named
icon_{s}x{s}.png whose composite is s by s pixels and one named
icon_{s}x{s}@2x.png whose composite is 2s by 2s pixels — and nothing
else under the staging path (any pre-existing contents are gone, the
directory itself is recreated).  The well-formedness hypothesis hwf
says only that files cannot sit under a directory that does not
exist. -/
theorem claim_C1_iconset_contents (resize : Img → Nat → Nat → Img)
    (decode : List Nat → Option Img) (source_path output_dir : String)
    (fs : FS) (img : Img) (fs' : FS) (msgs : List String)
    (hnu : pathUnder output_dir source_path = false)
    (hne : source_path ≠ output_dir)
    (hsrc : openImage decode fs source_path = some img)
    (hwf : pathExists fs output_dir = false →
      ∀ p, pathUnder output_dir p = true → fs.files p = none)
    (hrun : generate_icon_sizes resize decode source_path output_dir fs =
      .ok (fs', msgs)) :
    (∀ s ∈ sizes,
      fs'.files (iconName output_dir s false) =
        some (.image (compositeIcon resize img s)) ∧
      fs'.files (iconName output_dir s true) =
        some (.image (compositeIcon resize img (s * 2))) ∧
      (compositeIcon resize img s).width = s ∧
      (compositeIcon resize img s).height = s ∧
      (compositeIcon resize img (s * 2)).width = s * 2 ∧
      (compositeIcon resize img (s * 2)).height = s * 2) ∧
    (∀ p, pathUnder output_dir p = true → (fs'.files p).isSome = true →
      ∃ s ∈ sizes, p = iconName output_dir s false ∨ p = iconName output_dir s true) ∧
    fs'.dirs output_dir = true := by
  obtain rfl := generate_icon_sizes_ok resize decode source_path output_dir fs img
    fs' msgs hnu hne hsrc hrun
  refine ⟨?_, ?_, ?_⟩
  · intro s hs
    have h1 := writeIconLoop_files_mem resize img output_dir
      (resetFS fs output_dir) s hs false
    have h2 := writeIconLoop_files_mem resize img output_dir
      (resetFS fs output_dir) s hs true
    exact ⟨by simpa using h1, by simpa using h2, rfl, rfl, rfl, rfl⟩
  · intro p hp hsome
    by_contra hnot
    push_neg at hnot
    have hall : ∀ s ∈ sizes, ∀ b : Bool, p ≠ iconName output_dir s b := by
      intro s hs b
      cases b
      · exact (hnot s hs).1
      · exact (hnot s hs).2
    rw [writeIconLoop_files_notMem resize img output_dir sizes
      (resetFS fs output_dir) p hall] at hsome
    rw [resetFS_files_under fs output_dir p hp] at hsome
    cases hex : pathExists fs output_dir
    · rw [hex] at hsome
      simp at hsome
      rw [hwf hex p hp] at hsome
      simp at hsome
    · rw [hex] at hsome
      simp at hsome
  · rw [writeIconLoop_dirs]
    exact resetFS_dirs_self fs output_dir

/-- Witness for claim C1: a concrete run over a one-file filesystem. -/
theorem claim_C1_witness :
    ∃ fs' : FS,
      generate_icon_sizes resizeNearest decodeW "src.png" "out.iconset" fsW =
        .ok (fs', ["Generated iconset at out.iconset"]) ∧
      fs'.files (iconName "out.iconset" 16 false) =
        some (.image (compositeIcon resizeNearest constImg 16)) ∧
      fs'.dirs "out.iconset" = true := by
  have hwf : pathExists fsW "out.iconset" = false →
      ∀ p, pathUnder "out.iconset" p = true → fsW.files p = none := by
    intro _ p hp
    have hps : p ≠ "src.png" := by
      intro he
      rw [he] at hp
      exact absurd hp (by decide)
    simp [fsW, writeFile_files, emptyFS, hps]
  have h := claim_C1_iconset_contents resizeNearest decodeW "src.png" "out.iconset"
    fsW constImg _ _ (by decide) (by decide) rfl hwf rfl
  exact ⟨_, rfl, (h.1 16 (by decide)).1, h.2.2⟩

/-- Claim C8: reading back any of the ten saved iconset PNGs yields
pixel-for-pixel the in-memory composite that was saved (the PNG format
is lossless, as reflected in the openImage model of PIL save and
open). -/
theorem claim_C8_png_round_trip (resize : Img → Nat → Nat → Img)
    (decode : List Nat → Option Img) (source_path output_dir : String)
    (fs : FS) (img : Img) (fs' : FS) (msgs : List String)
    (hnu : pathUnder output_dir source_path = false)
    (hne : source_path ≠ output_dir)
    (hsrc : openImage decode fs source_path = some img)
    (hrun : generate_icon_sizes resize decode source_path output_dir fs =
      .ok (fs', msgs)) :
    ∀ s ∈ sizes, ∀ b : Bool,
      openImage decode fs' (iconName output_dir s b) =
        some (compositeIcon resize img (if b then s * 2 else s)) := by
  obtain rfl := generate_icon_sizes_ok resize decode source_path output_dir fs img
    fs' msgs hnu hne hsrc hrun
  intro s hs b
  unfold openImage
  rw [writeIconLoop_files_mem resize img output_dir (resetFS fs output_dir) s hs b]

/-- Witness for claim C8: reading back the 16x16 at 2x entry of a
concrete run yields the 32 by 32 composite. -/
theorem claim_C8_witness :
    ∃ fs' : FS,
      generate_icon_sizes resizeNearest decodeW "src.png" "out.iconset" fsW =
        .ok (fs', ["Generated iconset at out.iconset"]) ∧
      openImage decodeW fs' (iconName "out.iconset" 16 true) =
        some (compositeIcon resizeNearest constImg 32) := by
  have h := claim_C8_png_round_trip resizeNearest decodeW "src.png" "out.iconset"
    fsW constImg _ _ (by decide) (by decide) rfl rfl
  exact ⟨_, rfl, h 16 (by decide) true⟩

/-- Claim C9: generate_icon_sizes touches nothing outside the staging
directory — in particular the raw source file's entry is unchanged —
and, the embedding being pure, the loaded source bitmap is never
mutated: every composite is a fresh value derived from resize results
pasted onto a fresh transparent canvas. -/
theorem claim_C9_source_untouched (resize : Img → Nat → Nat → Img)
    (decode : List Nat → Option Img) (source_path output_dir : String)
    (fs : FS) (img : Img) (fs' : FS) (msgs : List String)
    (hnu : pathUnder output_dir source_path = false)
    (hne : source_path ≠ output_dir)
    (hsrc : openImage decode fs source_path = some img)
    (hrun : generate_icon_sizes resize decode source_path output_dir fs =
      .ok (fs', msgs)) :
    (∀ p, pathUnder output_dir p = false → p ≠ output_dir →
      fs'.files p = fs.files p) ∧
    fs'.files source_path = fs.files source_path ∧
    openImage decode fs' source_path = some img := by
  obtain rfl := generate_icon_sizes_ok resize decode source_path output_dir fs img
    fs' msgs hnu hne hsrc hrun
  have frame : ∀ p, pathUnder output_dir p = false → p ≠ output_dir →
      (writeIconLoop resize img output_dir sizes (resetFS fs output_dir)).files p =
        fs.files p := by
    intro p hp hpd
    rw [writeIconLoop_files_notMem resize img output_dir sizes
      (resetFS fs output_dir) p
      (fun s hs b => pathUnder_ne (pathUnder_iconName output_dir s b) hp)]
    exact resetFS_files_outside fs output_dir p hp hpd
  refine ⟨frame, frame source_path hnu hne, ?_⟩
  unfold openImage
  rw [frame source_path hnu hne]
  exact hsrc

/-- Witness for claim C9: in a concrete run the source file entry is
exactly what it was before the run. -/
theorem claim_C9_witness :
    ∃ fs' : FS,
      generate_icon_sizes resizeNearest decodeW "src.png" "out.iconset" fsW =
        .ok (fs', ["Generated iconset at out.iconset"]) ∧
      fs'.files "src.png" = fsW.files "src.png" := by
  have h := claim_C9_source_untouched resizeNearest decodeW "src.png" "out.iconset"
    fsW constImg _ _ (by decide) (by decide) rfl rfl
  exact ⟨_, rfl, h.2.1⟩

/-! Lemmas about response scanning and the fixed path layout. -/

theorem scanParts_none (parts : List RespPart)
    (h : ∀ p ∈ parts, p.inline_data = none) : scanParts parts = none := by
  induction parts with
  | nil => rfl
  | cons q qs ih =>
    have hq := h q (List.mem_cons_self q qs)
    simp only [scanParts, hq]
    exact ih (fun r hr => h r (List.mem_cons_of_mem q hr))

theorem scanParts_first (pre : List RespPart) (p : RespPart)
    (post : List RespPart) (d : RawData)
    (hpre : ∀ q ∈ pre, q.inline_data = none) (hp : p.inline_data = some d) :
    scanParts (pre ++ p :: post) = some d := by
  induction pre with
  | nil => simp [scanParts, hp]
  | cons q qs ih =>
    have hq := hpre q (List.mem_cons_self q qs)
    simp only [List.cons_append, scanParts, hq]
    exact ih (fun r hr => hpre r (List.mem_cons_of_mem q hr))

theorem strAppend_ne (n a b : String) (h : a ≠ b) : n ++ a ≠ n ++ b :=
  fun he => h (strAppend_cancel.mp he)

theorem pathUnder_append_false (n a b : String)
    (h : leadList (a ++ "/").data b.data = false) :
    pathUnder (n ++ a) (n ++ b) = false := by
  unfold pathUnder
  simp only [strAppend_assoc, String.data_append] at h ⊢
  rw [leadList_append]
  exact h

theorem iconsetLead_ne_icns (x : String) : ".iconset" ++ x ≠ ".icns" := by
  intro h
  have h2 := congrArg String.data h
  rw [String.data_append] at h2
  have h3 : ('.' :: 'i' :: 'c' :: 'o' :: 'n' :: 's' :: 'e' :: 't' :: ([] : List Char))
      ++ x.data = ('.' :: 'i' :: 'c' :: 'n' :: 's' :: ([] : List Char)) := h2
  injection h3 with _ h3
  injection h3 with _ h3
  injection h3 with _ h3
  injection h3 with h4 _
  exact absurd h4 (by decide)

theorem iconName_ne_icnsPath (n : String) (s : Nat) (b : Bool) :
    iconName (n ++ ".iconset") s b ≠ n ++ ".icns" := by
  unfold iconName
  rw [strAppend_assoc, strAppend_assoc]
  exact strAppend_ne n _ _ (iconsetLead_ne_icns ("/" ++ nameCore s b))

theorem generate_icns_ok_frame (tool : ToolResult) (icnsBytes : List Nat)
    (iconset_path output_path : String) (fs : FS) :
    ∃ fs2 msgs,
      generate_icns tool icnsBytes iconset_path output_path fs = .ok (fs2, msgs) ∧
      ∀ p, p ≠ output_path → fs2.files p = fs.files p := by
  cases tool
  · refine ⟨_, _, rfl, ?_⟩
    intro p hp
    simp [writeFile_files, hp]
  · exact ⟨_, _, rfl, fun p _ => rfl⟩
  · exact ⟨_, _, rfl, fun p _ => rfl⟩

/-- Claim C3: generate_icon scans the first candidate's parts in order
and uses exactly the first part carrying inline image data (any parts
before it have none and are skipped); when no part of the first
candidate carries image data the run writes no files (the filesystem is
returned untouched), prints the "No image generated." diagnostic, and
the whole script completes softly — an outcome distinct from the fatal
nonzero exit of the missing-theme case. -/
theorem claim_C3_response_scan (resize : Img → Nat → Nat → Img)
    (decode : List Nat → Option Img) (tool : ToolResult) (icnsBytes : List Nat)
    (theme output_name style : String) (response : Response) (fs : FS)
    (cand : Candidate) (rest : List Candidate)
    (hresp : response.candidates = cand :: rest) :
    (∀ pre p post d, cand.content.parts = pre ++ p :: post →
      (∀ q ∈ pre, q.inline_data = none) → p.inline_data = some d →
      scanParts cand.content.parts = some d) ∧
    ((∀ p ∈ cand.content.parts, p.inline_data = none) →
      generate_icon resize decode tool icnsBytes theme output_name style response fs =
        .ok (fs, [genMsg theme style, "No image generated."]) ∧
      runScript resize decode tool icnsBytes [theme, output_name, style] "" "" ""
          response fs =
        .completed fs [genMsg theme style, "No image generated."]) := by
  constructor
  · intro pre p post d hsplit hpre hp
    rw [hsplit]
    exact scanParts_first pre p post d hpre hp
  · intro hnone
    have hscan : scanParts cand.content.parts = none :=
      scanParts_none cand.content.parts hnone
    have hgen : generate_icon resize decode tool icnsBytes theme output_name style
        response fs = .ok (fs, [genMsg theme style, "No image generated."]) := by
      simp only [generate_icon, hresp, hscan]
    refine ⟨hgen, ?_⟩
    simp only [runScript, mainEntry, hgen, List.nil_append]

/-- Witness for claim C3: a text-then-image parts list selects the
first inline payload, and an all-text response completes softly with
the filesystem untouched. -/
theorem claim_C3_witness :
    scanParts [⟨none⟩, ⟨some (.binary [9])⟩, ⟨some (.binary [7])⟩] =
      some (.binary [9]) ∧
    generate_icon resizeNearest decodeW .notFound [] "t" "o" "modern"
        ⟨[⟨⟨[⟨none⟩]⟩⟩]⟩ emptyFS =
      .ok (emptyFS, [genMsg "t" "modern", "No image generated."]) := by
  constructor
  · exact (claim_C3_response_scan resizeNearest decodeW .notFound [] "t" "o" "modern"
      ⟨[⟨⟨[⟨none⟩, ⟨some (.binary [9])⟩, ⟨some (.binary [7])⟩]⟩⟩]⟩ emptyFS
      ⟨⟨[⟨none⟩, ⟨some (.binary [9])⟩, ⟨some (.binary [7])⟩]⟩⟩ [] rfl).1
      [⟨none⟩] ⟨some (.binary [9])⟩ [⟨some (.binary [7])⟩] (.binary [9]) rfl
      (by intro q hq; simp at hq; subst hq; rfl) rfl
  · exact ((claim_C3_response_scan resizeNearest decodeW .notFound [] "t" "o" "modern"
      ⟨[⟨⟨[⟨none⟩]⟩⟩]⟩ emptyFS ⟨⟨[⟨none⟩]⟩⟩ [] rfl).2
      (by intro p hp; simp at hp; subst hp; rfl)).1

/-- Claim C4: the inline payload is used as-is when it is already raw
bytes and base64-decoded when it is text; the resulting bytes are
written verbatim to output_name ++ "_generated.png", and that file is
the sole source the packaging stage reads: every iconset entry is the
composite of the image decoded from exactly those bytes. -/
theorem claim_C4_payload_to_file (resize : Img → Nat → Nat → Img)
    (decode : List Nat → Option Img) (tool : ToolResult) (icnsBytes : List Nat)
    (theme output_name style : String) (response : Response) (fs : FS)
    (cand : Candidate) (rest : List Candidate) (raw : RawData) (img : Img)
    (hresp : response.candidates = cand :: rest)
    (hscan : scanParts cand.content.parts = some raw)
    (hdec : decode (decodePayload raw) = some img) :
    (∀ b, raw = .binary b → decodePayload raw = b) ∧
    (∀ s, raw = .text s → decodePayload raw = b64decode s) ∧
    ∃ fs' msgs,
      generate_icon resize decode tool icnsBytes theme output_name style
          response fs = .ok (fs', msgs) ∧
      fs'.files (output_name ++ "_generated.png") =
        some (.bytes (decodePayload raw)) ∧
      ∀ s ∈ sizes, ∀ tb : Bool,
        fs'.files (iconName (output_name ++ ".iconset") s tb) =
          some (.image (compositeIcon resize img (if tb then s * 2 else s))) := by
  refine ⟨fun b hb => by subst hb; rfl, fun s hs => by subst hs; rfl, ?_⟩
  have hnu : pathUnder (output_name ++ ".iconset")
      (output_name ++ "_generated.png") = false :=
    pathUnder_append_false output_name ".iconset" "_generated.png" (by decide)
  have hne : output_name ++ "_generated.png" ≠ output_name ++ ".iconset" :=
    strAppend_ne output_name _ _ (by decide)
  have hopen : openImage decode
      (writeFile fs (output_name ++ "_generated.png") (.bytes (decodePayload raw)))
      (output_name ++ "_generated.png") = some img := by
    simp [openImage, writeFile_files, hdec]
  have hopen2 : openImage decode
      (resetFS (writeFile fs (output_name ++ "_generated.png")
        (.bytes (decodePayload raw))) (output_name ++ ".iconset"))
      (output_name ++ "_generated.png") = some img := by
    rw [openImage_resetFS decode _ _ _ hnu hne]
    exact hopen
  have hrun : generate_icon_sizes resize decode
      (output_name ++ "_generated.png") (output_name ++ ".iconset")
      (writeFile fs (output_name ++ "_generated.png") (.bytes (decodePayload raw))) =
      .ok (writeIconLoop resize img (output_name ++ ".iconset") sizes
          (resetFS (writeFile fs (output_name ++ "_generated.png")
            (.bytes (decodePayload raw))) (output_name ++ ".iconset")),
        ["Generated iconset at " ++ (output_name ++ ".iconset") ++ ""]) := by
    simp only [generate_icon_sizes]
    rw [hopen2]
    rfl
  obtain ⟨fs3, msgs3, hicns, hframe⟩ := generate_icns_ok_frame tool icnsBytes
    (output_name ++ ".iconset") (output_name ++ ".icns")
    (writeIconLoop resize img (output_name ++ ".iconset") sizes
      (resetFS (writeFile fs (output_name ++ "_generated.png")
        (.bytes (decodePayload raw))) (output_name ++ ".iconset")))
  refine ⟨fs3, [genMsg theme style,
      "Raw icon saved: " ++ (output_name ++ "_generated.png") ++ ""] ++
      ["Generated iconset at " ++ (output_name ++ ".iconset") ++ ""] ++ msgs3,
      ?_, ?_, ?_⟩
  · simp only [generate_icon, hresp, hscan, hrun, hicns]
    rfl
  · rw [hframe _ (strAppend_ne output_name _ _ (by decide))]
    rw [writeIconLoop_files_notMem resize img (output_name ++ ".iconset") sizes _ _
      (fun s hs b => pathUnder_ne (pathUnder_iconName (output_name ++ ".iconset") s b) hnu)]
    rw [resetFS_files_outside _ _ _ hnu hne]
    simp [writeFile_files]
  · intro s hs tb
    rw [hframe _ (iconName_ne_icnsPath output_name s tb)]
    exact writeIconLoop_files_mem resize img (output_name ++ ".iconset")
      (resetFS (writeFile fs (output_name ++ "_generated.png")
        (.bytes (decodePayload raw))) (output_name ++ ".iconset")) s hs tb

/-- Witness for claim C4: a concrete raw-bytes payload is written
verbatim and packaged. -/
theorem claim_C4_witness :
    ∃ fs' msgs,
      generate_icon resizeNearest decodeW .notFound [] "t" "out" "modern"
          ⟨[⟨⟨[⟨some (.binary [3])⟩]⟩⟩]⟩ emptyFS = .ok (fs', msgs) ∧
      fs'.files "out_generated.png" = some (.bytes [3]) ∧
      fs'.files (iconName "out.iconset" 16 false) =
        some (.image (compositeIcon resizeNearest constImg 16)) := by
  have h := claim_C4_payload_to_file resizeNearest decodeW .notFound [] "t" "out"
    "modern" ⟨[⟨⟨[⟨some (.binary [3])⟩]⟩⟩]⟩ emptyFS
    ⟨⟨[⟨some (.binary [3])⟩]⟩⟩ [] (.binary [3]) constImg rfl rfl rfl
  obtain ⟨fs', msgs, hgen, hraw, hmem⟩ := h.2.2
  exact ⟨fs', msgs, hgen, hraw, hmem 16 (by decide) false⟩
